import Mathlib

/-!
Shallow embedding of the aggregation core of the hungarian-holidays-api
repository (`app/services/holiday_service.py`, `app/scrapers/base.py`,
`app/models/holiday.py`), together with theorems settling the claims about
the Year-Suitability Ranker, the Holiday Resolver, the Workday Merger,
the TTL cache and the Aggregation Facade.

Modelling conventions:
- Python `datetime.date` is `PyDate` (year/month/day), with the proleptic
  Gregorian ordinal and `weekday` (0 = Monday .. 6 = Sunday) computed as
  in CPython; comparison is lexicographic on (year, month, day), which
  coincides with CPython date ordering.
- A scraper's network-facing `scrape_holidays` / `scrape_weekend_workdays`
  bodies are black boxes (per the spec they are external collaborators):
  a `Scraper` carries them as arbitrary functions `Int → Option _`, where
  `none` models a raised exception and `some l` a normal return of `l`.
- `datetime.now()` is passed explicitly: `currentYear` for
  `datetime.now().year` (used by `supports_year`) and an abstract
  timestamp `now : Nat` standing for the `isoformat()` fetch-time string
  and for the TTL cache clock.
- Loops that the claims observe through "how many sources were consulted"
  are instrumented to additionally return that count; the count is the
  number of scraper fetch calls the Python loop performs.
-/

namespace HungarianHolidays

/-- Python `datetime.date`: a (year, month, day) triple. -/
structure PyDate where
  year : Nat
  month : Nat
  day : Nat
deriving DecidableEq, Repr

/-- CPython leap-year rule (`calendar.isleap`). -/
def isLeapYear (y : Nat) : Bool :=
  y % 4 == 0 && (y % 100 != 0 || y % 400 == 0)

/-- Month lengths, as in CPython `datetime._days_in_month`. -/
def monthLengths (leap : Bool) : List Nat :=
  [31, if leap then 29 else 28, 31, 30, 31, 30, 31, 31, 30, 31, 30, 31]

/-- Days in the year strictly before month `m` (1-based), as in CPython
`datetime._days_before_month`. -/
def daysBeforeMonth (y m : Nat) : Nat :=
  ((monthLengths (isLeapYear y)).take (m - 1)).foldl (· + ·) 0

/-- Days before January 1 of year `y`, as in CPython
`datetime._days_before_year`. -/
def daysBeforeYear (y : Nat) : Nat :=
  365 * (y - 1) + (y - 1) / 4 - (y - 1) / 100 + (y - 1) / 400

/-- CPython `date.toordinal()`: day 1 is 0001-01-01. -/
def PyDate.toOrdinal (d : PyDate) : Nat :=
  daysBeforeYear d.year + daysBeforeMonth d.year d.month + d.day

/-- CPython `date.weekday()`: 0 = Monday .. 6 = Sunday
(0001-01-01 was a Monday). -/
def PyDate.weekday (d : PyDate) : Nat :=
  (d.toOrdinal + 6) % 7

/-- CPython date ordering: lexicographic on (year, month, day). -/
def PyDate.le (a b : PyDate) : Bool :=
  a.year < b.year ||
    (a.year == b.year &&
      (a.month < b.month || (a.month == b.month && a.day ≤ b.day)))

/-- Strict CPython date ordering. -/
def PyDate.lt (a b : PyDate) : Bool :=
  a.year < b.year ||
    (a.year == b.year &&
      (a.month < b.month || (a.month == b.month && a.day < b.day)))

/-- `app/models/holiday.py` `Holiday`. -/
structure Holiday where
  date : PyDate
  name : String
  name_en : Option String := none
  is_national : Bool := true
deriving DecidableEq, Repr

/-- `app/models/holiday.py` `WorkDay`. -/
structure WorkDay where
  date : PyDate
  original_day : String
  reason : Option String := none
  related_holiday : Option PyDate := none
deriving DecidableEq, Repr

/-- `app/models/holiday.py` `SourceInfo`; `scraped_at` is the abstract
fetch timestamp standing for `datetime.now().isoformat()`. -/
structure SourceInfo where
  name : String
  url : String
  year_coverage : Int
  scraped_at : Nat
deriving DecidableEq, Repr

/-- `app/models/holiday.py` `HolidayResponse`. -/
structure HolidayResponse where
  year : Int
  holidays : List Holiday
  weekend_workdays : List WorkDay
  source : SourceInfo
  total_holidays : Nat
  total_weekend_workdays : Nat
deriving DecidableEq, Repr

/-- `app/scrapers/base.py` `BaseScraper`: name, per-year URL
(`get_url`, i.e. `base_url.format(year=year)`), the preferred-year window
offsets, and the two black-box extraction routines (`none` models a raised
exception, `some l` a normal return). -/
structure Scraper where
  name : String
  url : Int → String
  min_year_offset : Int
  max_year_offset : Int
  scrape_holidays : Int → Option (List Holiday)
  scrape_weekend_workdays : Int → Option (List WorkDay)

/-- `BaseScraper.supports_year`, with `datetime.now().year` passed as
`currentYear`. -/
def Scraper.supports_year (s : Scraper) (currentYear year : Int) : Bool :=
  currentYear + s.min_year_offset ≤ year && year ≤ currentYear + s.max_year_offset

/-- `BaseScraper.get_year_distance`: 0 inside the window, otherwise the
least absolute distance to either window edge (`Int.natAbs` coerced back to
`Int` is Python `abs` on ints). -/
def Scraper.get_year_distance (s : Scraper) (currentYear year : Int) : Int :=
  if s.supports_year currentYear year then 0
  else
    min ((year - (currentYear + s.min_year_offset)).natAbs : Int)
        ((year - (currentYear + s.max_year_offset)).natAbs : Int)

/-- `BaseScraper.scrape`: runs both extraction routines and packages a
`SourceInfo`; an exception in either routine propagates (`none`). -/
def Scraper.scrape (s : Scraper) (year : Int) (now : Nat) :
    Option (List Holiday × List WorkDay × SourceInfo) :=
  match s.scrape_holidays year, s.scrape_weekend_workdays year with
  | some hs, some ws => some (hs, ws, ⟨s.name, s.url year, year, now⟩)
  | _, _ => none

/-- The sort key comparison `_get_scrapers_for_year` induces on the
enumerated scraper list: Python sorts by the tuple
`(s.get_year_distance(year), scrapers.index(s))`; since the service's
scraper objects are pairwise distinct, `scrapers.index(s)` is the element's
own position, so we sort (position, scraper) pairs lexicographically. -/
def rankerLe (currentYear year : Int) (a b : Nat × Scraper) : Bool :=
  a.2.get_year_distance currentYear year < b.2.get_year_distance currentYear year ||
    (a.2.get_year_distance currentYear year == b.2.get_year_distance currentYear year &&
      a.1 ≤ b.1)

/-- `HolidayService._get_scrapers_for_year`: a stable sort by ascending
year distance (Python `sorted` with key `(distance, index)`); since the
key pairs are pairwise distinct, the sorted order is unique, so any
correct sorting algorithm produces exactly Python's output. -/
def get_scrapers_for_year (scrapers : List Scraper) (currentYear year : Int) :
    List Scraper :=
  (scrapers.enum.insertionSort
      (fun a b => rankerLe currentYear year a b = true)).map Prod.snd

/-- Loop body of `HolidayService._scrape_holidays`, instrumented with the
number of scrapers consulted (fetch calls performed): try each scraper in
order; on exception skip; on a non-empty holiday list return it with its
`SourceInfo` and stop. -/
def scrapeHolidaysLoop (year : Int) (now : Nat) :
    List Scraper → List Holiday × Option SourceInfo × Nat
  | [] => ([], none, 0)
  | s :: rest =>
    match s.scrape year now with
    | some (hs, _, src) =>
      if hs.isEmpty then
        let r := scrapeHolidaysLoop year now rest
        (r.1, r.2.1, r.2.2 + 1)
      else (hs, some src, 1)
    | none =>
      let r := scrapeHolidaysLoop year now rest
      (r.1, r.2.1, r.2.2 + 1)

/-- `HolidayService._scrape_holidays`: rank the holiday scrapers, then run
the first-success loop. -/
def scrape_holidays_svc (holidayScrapers : List Scraper) (currentYear year : Int)
    (now : Nat) : List Holiday × Option SourceInfo × Nat :=
  scrapeHolidaysLoop year now (get_scrapers_for_year holidayScrapers currentYear year)

/-- One source's contribution to the workday dict: insert each candidate
whose date is not already a key, appending at the end (Python dict
insertion order); `workday.date not in all_workdays` is the only guard. -/
def insertWorkdays (acc : List (PyDate × WorkDay)) : List WorkDay →
    List (PyDate × WorkDay)
  | [] => acc
  | w :: rest =>
    insertWorkdays
      (if acc.any (fun p => p.1 == w.date) then acc else acc ++ [(w.date, w)]) rest

/-- Loop of `HolidayService._scrape_workdays` over the ranked scrapers:
every scraper is tried (no early stop); an exception contributes nothing. -/
def scrapeWorkdaysLoop (year : Int) :
    List Scraper → List (PyDate × WorkDay) → List (PyDate × WorkDay)
  | [], acc => acc
  | s :: rest, acc =>
    match s.scrape_weekend_workdays year with
    | some ws => scrapeWorkdaysLoop year rest (insertWorkdays acc ws)
    | none => scrapeWorkdaysLoop year rest acc

/-- `HolidayService._scrape_workdays`: rank the workday scrapers,
accumulate first-seen-wins by date over all of them, then sort the dict
values by date (`sorted(all_workdays.values(), key=lambda x: x.date)`;
the dict keys are distinct, so the sorted order is unique). -/
def scrape_workdays_svc (workdayScrapers : List Scraper) (currentYear year : Int) :
    List WorkDay :=
  ((scrapeWorkdaysLoop year (get_scrapers_for_year workdayScrapers currentYear year)
      []).map Prod.snd).insertionSort (fun a b => a.date.le b.date = true)

/-- The concatenation, in rank order, of the workday lists of the scrapers
whose fetch succeeded (a failed fetch contributes nothing, exactly like an
empty one); the stream the merger's first-seen-wins rule runs over. -/
def workdayStream (year : Int) : List Scraper → List WorkDay
  | [] => []
  | s :: rest =>
    match s.scrape_weekend_workdays year with
    | some ws => ws ++ workdayStream year rest
    | none => workdayStream year rest

/-- The TTL of the service cache, seconds (`TTLCache(maxsize=100, ttl=3600)`). -/
def cacheTTL : Nat := 3600

/-- The service cache: entries (key, insertion time, value). `cachetools`
`TTLCache` semantics: an entry is visible while `now < insertTime + ttl`
and is replaced on re-insertion. (The `maxsize=100` LRU bound is never
reached in the single-key scenarios the claims quantify over.) -/
abbrev Cache := List (String × Nat × HolidayResponse)

/-- TTL lookup: the stored value, unless absent or expired. -/
def cacheLookup (c : Cache) (key : String) (now : Nat) : Option HolidayResponse :=
  match c.find? (fun e => e.1 == key) with
  | some e => if now < e.2.1 + cacheTTL then some e.2.2 else none
  | none => none

/-- TTL insertion at time `now`, replacing any entry with the same key. -/
def cachePut (c : Cache) (key : String) (now : Nat) (v : HolidayResponse) : Cache :=
  (key, now, v) :: c.filter (fun e => !(e.1 == key))

/-- The `HolidayService` source registries (`holiday_scrapers` and
`workday_scrapers` set up in `__init__`; their concrete membership depends
on the `INCLUDE_PUBLICHOLIDAYS_FOR_WORKDAYS` environment flag, so we
quantify over them). -/
structure Service where
  holiday_scrapers : List Scraper
  workday_scrapers : List Scraper

/-- The cache key `f"holidays_{year}"`. -/
def cacheKey (year : Int) : String := "holidays_" ++ toString year

/-- The cache-miss path of `HolidayService.get_holidays`: scrape holidays
(with provenance), scrape-and-merge workdays, fall back to the sentinel
`SourceInfo(name="None", url="", ...)` when no holiday source succeeded,
and assemble the `HolidayResponse`. The second component counts the
scraper fetch calls performed (holiday attempts plus one
`scrape_weekend_workdays` call per ranked workday scraper). -/
def computeResponse (svc : Service) (currentYear year : Int) (now : Nat) :
    HolidayResponse × Nat :=
  let h := scrape_holidays_svc svc.holiday_scrapers currentYear year now
  let workdays := scrape_workdays_svc svc.workday_scrapers currentYear year
  let src :=
    match h.2.1 with
    | some s => s
    | none => ⟨"None", "", year, now⟩
  (⟨year, h.1, workdays, src, h.1.length, workdays.length⟩,
    h.2.2 + (get_scrapers_for_year svc.workday_scrapers currentYear year).length)

/-- `HolidayService.get_holidays` (year given explicitly): on a cache hit
return the cached response unchanged (0 fetch calls); on a miss compute,
store in the cache, and return. Returns (response, new cache, fetch-call
count). -/
def get_holidays (svc : Service) (c : Cache) (currentYear year : Int) (now : Nat) :
    HolidayResponse × Cache × Nat :=
  match cacheLookup c (cacheKey year) now with
  | some r => (r, c, 0)
  | none =>
    let r := computeResponse svc currentYear year now
    (r.1, cachePut c (cacheKey year) now r.1, r.2)

/-- `HolidayService.clear_cache`: drop every entry. -/
def clear_cache (_c : Cache) : Cache := []

/-! ### Order facts about CPython date comparison and the ranker key -/

lemma dateLe_total (a b : PyDate) : a.le b = true ∨ b.le a = true := by
  simp only [PyDate.le, Bool.or_eq_true, Bool.and_eq_true, decide_eq_true_eq, beq_iff_eq]
  omega

lemma dateLe_trans {a b c : PyDate} (h1 : a.le b = true) (h2 : b.le c = true) :
    a.le c = true := by
  simp only [PyDate.le, Bool.or_eq_true, Bool.and_eq_true, decide_eq_true_eq,
    beq_iff_eq] at h1 h2 ⊢
  omega

lemma dateLt_of_le_of_ne {a b : PyDate} (h : a.le b = true) (hne : a ≠ b) :
    a.lt b = true := by
  have hf : a.year ≠ b.year ∨ a.month ≠ b.month ∨ a.day ≠ b.day := by
    by_contra hc
    push_neg at hc
    exact hne (by cases a; cases b; simp_all)
  simp only [PyDate.le, Bool.or_eq_true, Bool.and_eq_true, decide_eq_true_eq,
    beq_iff_eq] at h
  simp only [PyDate.lt, Bool.or_eq_true, Bool.and_eq_true, decide_eq_true_eq,
    beq_iff_eq]
  omega

lemma rankerLe_total (currentYear year : Int) (a b : Nat × Scraper) :
    rankerLe currentYear year a b = true ∨ rankerLe currentYear year b a = true := by
  simp only [rankerLe, Bool.or_eq_true, Bool.and_eq_true, decide_eq_true_eq, beq_iff_eq]
  omega

lemma rankerLe_trans (currentYear year : Int) {a b c : Nat × Scraper}
    (h1 : rankerLe currentYear year a b = true)
    (h2 : rankerLe currentYear year b c = true) :
    rankerLe currentYear year a c = true := by
  simp only [rankerLe, Bool.or_eq_true, Bool.and_eq_true, decide_eq_true_eq,
    beq_iff_eq] at h1 h2 ⊢
  omega

/-- The ranked scraper list is a permutation of the registered one. -/
lemma perm_get_scrapers_for_year (scrapers : List Scraper) (currentYear year : Int) :
    (get_scrapers_for_year scrapers currentYear year).Perm scrapers := by
  have h :=
    (List.perm_insertionSort (fun a b => rankerLe currentYear year a b = true)
        scrapers.enum).map Prod.snd
  rwa [List.enum_map_snd] at h

/-- The enumerated ranked list is strictly sorted by the lexicographic key
(distance, original position). -/
lemma pairwise_rankerKey (scrapers : List Scraper) (currentYear year : Int) :
    (scrapers.enum.insertionSort
        (fun a b => rankerLe currentYear year a b = true)).Pairwise
      (fun a b =>
        a.2.get_year_distance currentYear year <
            b.2.get_year_distance currentYear year ∨
          (a.2.get_year_distance currentYear year =
              b.2.get_year_distance currentYear year ∧ a.1 < b.1)) := by
  haveI : IsTotal (Nat × Scraper) (fun a b => rankerLe currentYear year a b = true) :=
    ⟨rankerLe_total currentYear year⟩
  haveI : IsTrans (Nat × Scraper) (fun a b => rankerLe currentYear year a b = true) :=
    ⟨fun _ _ _ => rankerLe_trans currentYear year⟩
  have hsorted :=
    List.sorted_insertionSort (fun a b => rankerLe currentYear year a b = true)
      scrapers.enum
  have hperm :=
    List.perm_insertionSort (fun a b => rankerLe currentYear year a b = true)
      scrapers.enum
  have hnodup : (scrapers.enum.insertionSort
      (fun a b => rankerLe currentYear year a b = true)).map Prod.fst |>.Nodup := by
    have h1 := hperm.map Prod.fst
    rw [List.enum_map_fst] at h1
    exact h1.nodup_iff.mpr (List.nodup_range _)
  have hpairne := List.pairwise_map.mp hnodup
  refine (List.Pairwise.and hsorted hpairne).imp ?_
  intro a b hab
  obtain ⟨hle, hne⟩ := hab
  simp only [rankerLe, Bool.or_eq_true, Bool.and_eq_true, decide_eq_true_eq,
    beq_iff_eq] at hle
  omega

/-! ### The first-seen-wins accumulator of the Workday Merger -/

lemma insertWorkdays_append (xs ys : List WorkDay) :
    ∀ acc, insertWorkdays acc (xs ++ ys) = insertWorkdays (insertWorkdays acc xs) ys := by
  induction xs with
  | nil => intro acc; rfl
  | cons x rest ih =>
    intro acc
    rw [List.cons_append, insertWorkdays, insertWorkdays, ih]

/-- Running the merger loop over the ranked scrapers is running the
accumulator over the concatenated stream of successful outputs. -/
lemma scrapeWorkdaysLoop_eq_stream (year : Int) (l : List Scraper) :
    ∀ acc, scrapeWorkdaysLoop year l acc = insertWorkdays acc (workdayStream year l) := by
  induction l with
  | nil => intro acc; rfl
  | cons s rest ih =>
    intro acc
    cases h : s.scrape_weekend_workdays year with
    | none => simp only [scrapeWorkdaysLoop, workdayStream, h, ih]
    | some ws =>
      simp only [scrapeWorkdaysLoop, workdayStream, h, ih, insertWorkdays_append]

/-- Membership in the accumulator: an entry is either inherited from `acc`,
or it is keyed by its own date, that date is unseen in `acc`, and it is the
FIRST record of the stream carrying that date. -/
lemma mem_insertWorkdays (l : List WorkDay) :
    ∀ (acc : List (PyDate × WorkDay)) (d : PyDate) (w : WorkDay),
      (d, w) ∈ insertWorkdays acc l ↔
        ((d, w) ∈ acc ∨
          (w.date = d ∧ acc.any (fun p => p.1 == d) = false ∧
            l.find? (fun u => u.date == d) = some w)) := by
  induction l with
  | nil => intro acc d w; simp [insertWorkdays]
  | cons x rest ih =>
    intro acc d w
    rw [insertWorkdays]
    by_cases hseen : acc.any (fun p => p.1 == x.date) = true
    · rw [if_pos hseen, ih]
      by_cases hd : x.date = d
      · subst hd
        simp [List.find?_cons, hseen]
      · have hxd : (x.date == d) = false := by simp [hd]
        simp [List.find?_cons, hxd]
    · have hseen2 : acc.any (fun p => p.1 == x.date) = false :=
        Bool.eq_false_iff.mpr hseen
      rw [if_neg hseen, ih]
      by_cases hd : x.date = d
      · subst hd
        constructor
        · rintro (hmem | ⟨h1, h2, h3⟩)
          · rcases List.mem_append.mp hmem with hacc | hsing
            · exact Or.inl hacc
            · have hx := List.mem_singleton.mp hsing
              have hw : w = x := congrArg Prod.snd hx
              subst hw
              refine Or.inr ⟨rfl, hseen2, ?_⟩
              rw [List.find?_cons_of_pos _ (by simp)]
          · have hany : ((acc ++ [(x.date, x)]).any fun p => p.1 == x.date) = true :=
              List.any_eq_true.mpr ⟨(x.date, x), by simp, by simp⟩
            rw [h2] at hany
            cases hany
        · rintro (hacc | ⟨h1, h2, h3⟩)
          · exact Or.inl (List.mem_append.mpr (Or.inl hacc))
          · rw [List.find?_cons_of_pos _ (by simp)] at h3
            obtain rfl : x = w := Option.some.inj h3
            exact Or.inl (List.mem_append.mpr (Or.inr (List.mem_singleton.mpr rfl)))
      · have hxd : (x.date == d) = false := by simp [hd]
        constructor
        · rintro (hmem | ⟨h1, h2, h3⟩)
          · rcases List.mem_append.mp hmem with hacc | hsing
            · exact Or.inl hacc
            · have hx := List.mem_singleton.mp hsing
              exact absurd (congrArg Prod.fst hx).symm hd
          · rw [List.any_append] at h2
            rcases Bool.or_eq_false_iff.mp h2 with ⟨h2a, _⟩
            refine Or.inr ⟨h1, h2a, ?_⟩
            rw [List.find?_cons_of_neg _ (by simp [hxd])]
            exact h3
        · rintro (hacc | ⟨h1, h2, h3⟩)
          · exact Or.inl (List.mem_append.mpr (Or.inl hacc))
          · rw [List.find?_cons_of_neg _ (by simp [hxd])] at h3
            refine Or.inr ⟨h1, ?_, h3⟩
            rw [List.any_append]
            simp [h2, hxd]

/-- Every accumulator entry built from the empty dict is keyed by its
record's date. -/
lemma fst_eq_date_of_mem_insertWorkdays {l : List WorkDay}
    {p : PyDate × WorkDay} (hp : p ∈ insertWorkdays [] l) : p.1 = p.2.date := by
  obtain ⟨d, w⟩ := p
  rw [mem_insertWorkdays] at hp
  simpa using (hp.resolve_left (by simp)).1.symm

/-- The dict keys stay distinct: a candidate is only inserted when its date
is not yet a key. -/
lemma keys_nodup_insertWorkdays (l : List WorkDay) :
    ∀ acc : List (PyDate × WorkDay), ((acc.map Prod.fst).Nodup) →
      ((insertWorkdays acc l).map Prod.fst).Nodup := by
  induction l with
  | nil => intro acc h; exact h
  | cons x rest ih =>
    intro acc h
    rw [insertWorkdays]
    by_cases hseen : acc.any (fun p => p.1 == x.date) = true
    · rw [if_pos hseen]; exact ih acc h
    · rw [if_neg hseen]
      refine ih _ ?_
      have hnot : x.date ∉ acc.map Prod.fst := by
        intro hc
        obtain ⟨p, hp, hpd⟩ := List.mem_map.mp hc
        exact hseen (List.any_eq_true.mpr ⟨p, hp, by simp [hpd]⟩)
      simp [List.nodup_append, h, hnot]

/-- `_scrape_workdays` membership: exactly the FIRST record, in the
rank-ordered stream of all successful sources, for each date present. -/
lemma mem_scrape_workdays_svc (scrapers : List Scraper) (currentYear year : Int)
    (w : WorkDay) :
    w ∈ scrape_workdays_svc scrapers currentYear year ↔
      (workdayStream year (get_scrapers_for_year scrapers currentYear year)).find?
          (fun u => u.date == w.date) = some w := by
  unfold scrape_workdays_svc
  rw [scrapeWorkdaysLoop_eq_stream]
  refine Iff.trans (List.Perm.mem_iff (List.perm_insertionSort _ _)) ?_
  constructor
  · intro h
    obtain ⟨⟨d, w2⟩, hp, hw2⟩ := List.mem_map.mp h
    obtain rfl : w2 = w := hw2
    rw [mem_insertWorkdays] at hp
    obtain ⟨rfl, _, h3⟩ := hp.resolve_left (by simp)
    exact h3
  · intro h
    refine List.mem_map.mpr ⟨(w.date, w), ?_, rfl⟩
    rw [mem_insertWorkdays]
    exact Or.inr ⟨rfl, by simp, h⟩

/-- The merged workday values carry pairwise distinct dates. -/
lemma dates_pairwise_ne_scrape_workdays (scrapers : List Scraper)
    (currentYear year : Int) :
    (scrape_workdays_svc scrapers currentYear year).Pairwise
      (fun a b => a.date ≠ b.date) := by
  unfold scrape_workdays_svc
  rw [scrapeWorkdaysLoop_eq_stream]
  set vals := (insertWorkdays []
    (workdayStream year (get_scrapers_for_year scrapers currentYear year))) with hvals
  have hkeys : (vals.map Prod.fst).Nodup :=
    keys_nodup_insertWorkdays _ [] (by simp)
  have hmapeq : vals.map Prod.fst = (vals.map Prod.snd).map (fun w => w.date) := by
    rw [List.map_map]
    exact List.map_congr_left fun p hp => fst_eq_date_of_mem_insertWorkdays hp
  rw [hmapeq] at hkeys
  have hpair : (vals.map Prod.snd).Pairwise (fun a b => a.date ≠ b.date) :=
    List.pairwise_map.mp hkeys
  exact ((List.perm_insertionSort (fun a b => a.date.le b.date = true)
      (vals.map Prod.snd)).pairwise_iff fun h => h.symm).mpr hpair

/-- The merged workday list is strictly ascending by date. -/
lemma sorted_scrape_workdays (scrapers : List Scraper) (currentYear year : Int) :
    (scrape_workdays_svc scrapers currentYear year).Pairwise
      (fun a b => a.date.lt b.date = true) := by
  haveI : IsTotal WorkDay (fun a b => a.date.le b.date = true) :=
    ⟨fun a b => dateLe_total a.date b.date⟩
  haveI : IsTrans WorkDay (fun a b => a.date.le b.date = true) :=
    ⟨fun _ _ _ => dateLe_trans⟩
  have hsorted : (scrape_workdays_svc scrapers currentYear year).Pairwise
      (fun a b => a.date.le b.date = true) :=
    List.sorted_insertionSort _ _
  have hne := dates_pairwise_ne_scrape_workdays scrapers currentYear year
  exact (hsorted.and hne).imp fun h => dateLt_of_le_of_ne h.1 h.2

/-- Source attribution of stream records. -/
lemma mem_workdayStream {year : Int} {w : WorkDay} :
    ∀ {l : List Scraper}, w ∈ workdayStream year l →
      ∃ s ∈ l, ∃ ws, s.scrape_weekend_workdays year = some ws ∧ w ∈ ws := by
  intro l
  induction l with
  | nil => intro h; cases h
  | cons s rest ih =>
    intro h
    rw [workdayStream] at h
    cases hs : s.scrape_weekend_workdays year with
    | none =>
      rw [hs] at h
      obtain ⟨t, ht, hw⟩ := ih h
      exact ⟨t, List.mem_cons_of_mem s ht, hw⟩
    | some ws =>
      rw [hs] at h
      rcases List.mem_append.mp h with h1 | h2
      · exact ⟨s, List.mem_cons_self s rest, ws, hs, h1⟩
      · obtain ⟨t, ht, hw⟩ := ih h2
        exact ⟨t, List.mem_cons_of_mem s ht, hw⟩

/-! ### The Holiday Resolver loop -/

/-- A successful `scrape` forces the packaged `SourceInfo` and the holiday
component. -/
lemma scrape_eq_some_inv {s : Scraper} {year : Int} {now : Nat}
    {hs : List Holiday} {ws : List WorkDay} {si : SourceInfo}
    (h : s.scrape year now = some (hs, ws, si)) :
    si = ⟨s.name, s.url year, year, now⟩ ∧ s.scrape_holidays year = some hs ∧
      s.scrape_weekend_workdays year = some ws := by
  revert h
  unfold Scraper.scrape
  cases h1 : s.scrape_holidays year with
  | none => intro h; cases h
  | some a =>
    cases h2 : s.scrape_weekend_workdays year with
    | none => intro h; cases h
    | some b =>
      intro h
      obtain ⟨ha, hb, hc⟩ : a = hs ∧ b = ws ∧
          (⟨s.name, s.url year, year, now⟩ : SourceInfo) = si := by
        simpa using Option.some.inj h
      exact ⟨hc.symm, by rw [ha], by rw [hb]⟩

/-- Skipped prefix: sources that raise or return an empty holiday list only
advance the loop and increment the consulted count. -/
lemma scrapeHolidaysLoop_skip_prefix (year : Int) (now : Nat)
    (pre rest : List Scraper)
    (h : ∀ t ∈ pre, t.scrape year now = none ∨
        ∃ ws si, t.scrape year now = some ([], ws, si)) :
    scrapeHolidaysLoop year now (pre ++ rest) =
      ((scrapeHolidaysLoop year now rest).1, (scrapeHolidaysLoop year now rest).2.1,
        (scrapeHolidaysLoop year now rest).2.2 + pre.length) := by
  induction pre with
  | nil => simp
  | cons t pre ih =>
    have hrest : ∀ u ∈ pre, u.scrape year now = none ∨
        ∃ ws si, u.scrape year now = some ([], ws, si) :=
      fun u hu => h u (List.mem_cons_of_mem t hu)
    rcases h t (List.mem_cons_self t pre) with hn | ⟨ws, si, hss⟩
    · rw [List.cons_append, scrapeHolidaysLoop]
      rw [hn, ih hrest]
      simp [Nat.add_assoc]
    · rw [List.cons_append, scrapeHolidaysLoop]
      rw [hss]
      simp only [List.isEmpty_nil, if_true, ih hrest]
      simp [Nat.add_assoc]

/-- If every source raises or returns an empty holiday list, the loop ends
with no holidays, no provenance, and all sources consulted. -/
lemma scrapeHolidaysLoop_all_fail (year : Int) (now : Nat) (l : List Scraper)
    (h : ∀ t ∈ l, t.scrape year now = none ∨
        ∃ ws si, t.scrape year now = some ([], ws, si)) :
    scrapeHolidaysLoop year now l = ([], none, l.length) := by
  have h0 := scrapeHolidaysLoop_skip_prefix year now l [] h
  rw [List.append_nil] at h0
  rw [h0]
  simp [scrapeHolidaysLoop]

/-- The resolver's holiday list is empty or verbatim some consulted
source's `scrape_holidays` output. -/
lemma scrapeHolidaysLoop_result_cases (year : Int) (now : Nat) :
    ∀ l : List Scraper, (scrapeHolidaysLoop year now l).1 = [] ∨
      ∃ s ∈ l, s.scrape_holidays year = some (scrapeHolidaysLoop year now l).1 := by
  intro l
  induction l with
  | nil => exact Or.inl rfl
  | cons s rest ih =>
    cases h : s.scrape year now with
    | none =>
      have hred : (scrapeHolidaysLoop year now (s :: rest)).1 =
          (scrapeHolidaysLoop year now rest).1 := by
        simp [scrapeHolidaysLoop, h]
      rw [hred]
      rcases ih with h1 | ⟨t, ht, h2⟩
      · exact Or.inl h1
      · exact Or.inr ⟨t, List.mem_cons_of_mem s ht, h2⟩
    | some v =>
      obtain ⟨hs, ws, si⟩ := v
      by_cases he : hs.isEmpty
      · have hred : (scrapeHolidaysLoop year now (s :: rest)).1 =
            (scrapeHolidaysLoop year now rest).1 := by
          simp [scrapeHolidaysLoop, h, he]
        rw [hred]
        rcases ih with h1 | ⟨t, ht, h2⟩
        · exact Or.inl h1
        · exact Or.inr ⟨t, List.mem_cons_of_mem s ht, h2⟩
      · have hred : (scrapeHolidaysLoop year now (s :: rest)).1 = hs := by
          simp [scrapeHolidaysLoop, h, he]
        rw [hred]
        exact Or.inr ⟨s, List.mem_cons_self s rest, (scrape_eq_some_inv h).2.1⟩

/-- Any property of holiday lists that holds of the empty list and of every
source's successful output holds of the resolver's result. -/
lemma scrape_holidays_svc_prop (Q : List Holiday → Prop) (hnil : Q [])
    (scrapers : List Scraper) (currentYear year : Int) (now : Nat)
    (hQ : ∀ s ∈ scrapers, ∀ hs, s.scrape_holidays year = some hs → Q hs) :
    Q (scrape_holidays_svc scrapers currentYear year now).1 := by
  unfold scrape_holidays_svc
  rcases scrapeHolidaysLoop_result_cases year now
      (get_scrapers_for_year scrapers currentYear year) with h | ⟨s, hsmem, h2⟩
  · rw [h]; exact hnil
  · exact hQ s ((perm_get_scrapers_for_year scrapers currentYear year).subset hsmem)
      _ h2

/-- Attribution of a merged workday back to a registered source. -/
lemma mem_scrape_workdays_attribution {scrapers : List Scraper}
    {currentYear year : Int} {w : WorkDay}
    (h : w ∈ scrape_workdays_svc scrapers currentYear year) :
    ∃ s ∈ scrapers, ∃ ws, s.scrape_weekend_workdays year = some ws ∧ w ∈ ws := by
  rw [mem_scrape_workdays_svc] at h
  obtain ⟨s, hsmem, ws, hws, hw⟩ := mem_workdayStream (List.mem_of_find?_eq_some h)
  exact ⟨s, (perm_get_scrapers_for_year scrapers currentYear year).subset hsmem,
    ws, hws, hw⟩

/-- If every source's workday fetch raises or returns the empty list, the
rank-ordered stream is empty. -/
lemma workdayStream_all_empty (year : Int) :
    ∀ l : List Scraper, (∀ t ∈ l, t.scrape_weekend_workdays year = none ∨
        t.scrape_weekend_workdays year = some []) → workdayStream year l = [] := by
  intro l
  induction l with
  | nil => intro _; rfl
  | cons s rest ih =>
    intro h
    rw [workdayStream]
    have hrest := fun u hu => h u (List.mem_cons_of_mem s hu)
    rcases h s (List.mem_cons_self s rest) with hn | he
    · rw [hn]; exact ih hrest
    · rw [he]; simpa using ih hrest

/-- Total workday failure: the merged list is empty. -/
lemma scrape_workdays_svc_all_empty (scrapers : List Scraper)
    (currentYear year : Int)
    (h : ∀ t ∈ scrapers, t.scrape_weekend_workdays year = none ∨
        t.scrape_weekend_workdays year = some []) :
    scrape_workdays_svc scrapers currentYear year = [] := by
  unfold scrape_workdays_svc
  rw [scrapeWorkdaysLoop_eq_stream, workdayStream_all_empty year _
    (fun t ht => h t ((perm_get_scrapers_for_year scrapers currentYear year).subset ht))]
  rfl

/-! ### TTL-cache facts -/

lemma cacheLookup_cachePut_same (c : Cache) (key : String) (t now2 : Nat)
    (v : HolidayResponse) :
    cacheLookup (cachePut c key t v) key now2 =
      if now2 < t + cacheTTL then some v else none := by
  unfold cacheLookup cachePut
  rw [List.find?_cons_of_pos _ (by simp)]

/-- Total failure gives the empty response with the sentinel provenance. -/
lemma computeResponse_all_fail (svc : Service) (currentYear year : Int) (now : Nat)
    (hH : ∀ s ∈ svc.holiday_scrapers, s.scrape year now = none ∨
        ∃ ws si, s.scrape year now = some ([], ws, si))
    (hW : ∀ s ∈ svc.workday_scrapers, s.scrape_weekend_workdays year = none ∨
        s.scrape_weekend_workdays year = some []) :
    (computeResponse svc currentYear year now).1 =
      ⟨year, [], [], ⟨"None", "", year, now⟩, 0, 0⟩ := by
  unfold computeResponse scrape_holidays_svc
  rw [scrapeHolidaysLoop_all_fail year now _
      (fun t ht => hH t ((perm_get_scrapers_for_year svc.holiday_scrapers currentYear
        year).subset ht)),
    scrape_workdays_svc_all_empty svc.workday_scrapers currentYear year hW]
  rfl

/-- C7: the Year-Suitability Ranker returns a permutation of exactly the
input sources, ordered by ascending `get_year_distance(year)`, ties broken
by original registration position (the output is the sort, by the strict
lexicographic key (distance, original index), of the position-enumerated
input). -/
theorem ranker_orders_by_distance_then_registration
    (scrapers : List Scraper) (currentYear year : Int) :
    (get_scrapers_for_year scrapers currentYear year).Perm scrapers ∧
      get_scrapers_for_year scrapers currentYear year =
        (scrapers.enum.insertionSort
            (fun a b => rankerLe currentYear year a b = true)).map Prod.snd ∧
      (scrapers.enum.insertionSort
          (fun a b => rankerLe currentYear year a b = true)).Pairwise
        (fun a b =>
          a.2.get_year_distance currentYear year <
              b.2.get_year_distance currentYear year ∨
            (a.2.get_year_distance currentYear year =
                b.2.get_year_distance currentYear year ∧ a.1 < b.1)) :=
  ⟨perm_get_scrapers_for_year scrapers currentYear year, rfl,
    pairwise_rankerKey scrapers currentYear year⟩

/-- C9: `get_year_distance` is non-negative, zero exactly on supported
years, and otherwise the least absolute distance to either edge of the
preferred window, at a fixed "now" (`currentYear`); all the repository's
scrapers satisfy the hypothesis `min_year_offset ≤ max_year_offset`. -/
theorem year_distance_zero_iff_supported (s : Scraper) (currentYear year : Int)
    (hwin : s.min_year_offset ≤ s.max_year_offset) :
    0 ≤ s.get_year_distance currentYear year ∧
      (s.get_year_distance currentYear year = 0 ↔
        s.supports_year currentYear year = true) ∧
      (s.supports_year currentYear year = false →
        s.get_year_distance currentYear year =
          min ((year - (currentYear + s.min_year_offset)).natAbs : Int)
              ((year - (currentYear + s.max_year_offset)).natAbs : Int)) := by
  unfold Scraper.get_year_distance
  split_ifs with hsup
  · refine ⟨le_refl 0, ⟨fun _ => hsup, fun _ => rfl⟩, fun hc => ?_⟩
    rw [hsup] at hc
    exact absurd hc (by simp)
  · have hsup2 : s.supports_year currentYear year = false :=
      Bool.eq_false_iff.mpr hsup
    have hnot : ¬(currentYear + s.min_year_offset ≤ year ∧
        year ≤ currentYear + s.max_year_offset) := by
      simpa only [Scraper.supports_year, Bool.and_eq_true, decide_eq_true_eq] using hsup
    refine ⟨?_, ⟨fun h0 => ?_, fun hc => by rw [hc] at hsup2; cases hsup2⟩,
      fun _ => rfl⟩
    · rcases le_total ((year - (currentYear + s.min_year_offset)).natAbs : Int)
          ((year - (currentYear + s.max_year_offset)).natAbs : Int) with h | h
      · rw [min_eq_left h]; positivity
      · rw [min_eq_right h]; positivity
    · exfalso
      rcases le_total ((year - (currentYear + s.min_year_offset)).natAbs : Int)
          ((year - (currentYear + s.max_year_offset)).natAbs : Int) with h | h
      · rw [min_eq_left h] at h0; omega
      · rw [min_eq_right h] at h0; omega


/-! ### Concrete stub sources used to witness and refute claims -/

def stubUrl (nm : String) : Int → String := fun y => nm ++ "/" ++ toString y

def stubHoliday : Holiday :=
  { date := ⟨2025, 1, 1⟩, name := "Újév", name_en := some "New Year" }

def saturdayWorkday : WorkDay :=
  { date := ⟨2025, 5, 17⟩, original_day := "Saturday", reason := some "munkanap" }

/-- 2025-05-19 is a Monday. -/
def mondayWorkday : WorkDay :=
  { date := ⟨2025, 5, 19⟩, original_day := "Monday" }

def wrongYearHoliday : Holiday := { date := ⟨2026, 1, 1⟩, name := "Újév" }

/-- 2026-12-12 is a Saturday, but not in 2025. -/
def wrongYearWorkday : WorkDay :=
  { date := ⟨2026, 12, 12⟩, original_day := "Saturday" }

def dupHolidayA : Holiday := { date := ⟨2025, 1, 1⟩, name := "Újév" }

def dupHolidayB : Holiday := { date := ⟨2025, 1, 1⟩, name := "New Year" }

/-- A source whose fetches always raise. -/
def failingScraper : Scraper :=
  ⟨"F", stubUrl "F", -2, 2, fun _ => none, fun _ => none⟩

/-- A well-behaved source: one holiday, one Saturday workday. -/
def succeedingScraper : Scraper :=
  ⟨"G", stubUrl "G", -2, 2, fun _ => some [stubHoliday],
    fun _ => some [saturdayWorkday]⟩

/-- A source reporting a Monday as a weekend workday. -/
def mondayScraper : Scraper :=
  ⟨"M", stubUrl "M", -2, 2, fun _ => some [], fun _ => some [mondayWorkday]⟩

/-- A source reporting records dated outside the requested year. -/
def wrongYearScraper : Scraper :=
  ⟨"W", stubUrl "W", -2, 2, fun _ => some [wrongYearHoliday],
    fun _ => some [wrongYearWorkday]⟩

/-- A source returning two holidays on the same date. -/
def dupScraper : Scraper :=
  ⟨"D", stubUrl "D", -2, 2, fun _ => some [dupHolidayA, dupHolidayB],
    fun _ => some []⟩

/-- The preferred-year window of the repository's `MfaGovHuScraper`
(`min_year_offset = -1`, `max_year_offset = 1`); fetch bodies inert. -/
def mfaWindowScraper : Scraper :=
  ⟨"MFA.gov.hu (Official)", stubUrl "MFA", -1, 1, fun _ => none, fun _ => none⟩

/-- The service built on the well-behaved source alone. -/
def svcG : Service := ⟨[succeedingScraper], [succeedingScraper]⟩

/-! ### The claims -/

/-- C1: for every requested year, the Workday Merger consults every ranked
workday source (no early stop): a workday is in the merged list exactly
when it is the FIRST record carrying its date in the rank-ordered
concatenation of all successful sources' outputs — so the earliest-ranked
source's record wins per date, later sources only fill unseen dates — and
the merged list is sorted ascending by date. -/
theorem workday_merger_first_seen_wins_sorted (scrapers : List Scraper)
    (currentYear year : Int) :
    (∀ w : WorkDay,
        w ∈ scrape_workdays_svc scrapers currentYear year ↔
          (workdayStream year (get_scrapers_for_year scrapers currentYear year)).find?
              (fun u => u.date == w.date) = some w) ∧
      (scrape_workdays_svc scrapers currentYear year).Pairwise
        (fun a b => a.date.lt b.date = true) :=
  ⟨fun w => mem_scrape_workdays_svc scrapers currentYear year w,
    sorted_scrape_workdays scrapers currentYear year⟩

/-- C2: the Holiday Resolver skips every ranked source that raises or
returns an empty holiday list, accepts the first source with a non-empty
list verbatim, records that source's name, its URL for the year, the year
and the fetch time as provenance, and consults no later source (the
consulted count is the accepted source's rank position plus one). -/
theorem holiday_resolver_first_nonempty_wins (scrapers : List Scraper)
    (currentYear year : Int) (now : Nat) (pre post : List Scraper) (s : Scraper)
    (hs : List Holiday) (ws : List WorkDay) (si : SourceInfo)
    (hdecomp : get_scrapers_for_year scrapers currentYear year = pre ++ s :: post)
    (hskip : ∀ t ∈ pre, t.scrape year now = none ∨
        ∃ ws2 si2, t.scrape year now = some ([], ws2, si2))
    (hsucc : s.scrape year now = some (hs, ws, si))
    (hne : hs ≠ []) :
    scrape_holidays_svc scrapers currentYear year now =
      (hs, some ⟨s.name, s.url year, year, now⟩, pre.length + 1) := by
  unfold scrape_holidays_svc
  rw [hdecomp, scrapeHolidaysLoop_skip_prefix year now pre (s :: post) hskip]
  have hempty : hs.isEmpty = false := by
    cases hs with
    | nil => exact absurd rfl hne
    | cons a l => rfl
  obtain ⟨hsi, _, _⟩ := scrape_eq_some_inv hsucc
  have hred : scrapeHolidaysLoop year now (s :: post) = (hs, some si, 1) := by
    simp [scrapeHolidaysLoop, hsucc, hempty]
  rw [hred, hsi]
  simp [Nat.add_comm]

/-- Witness for C2: a failing rank-1 source is skipped, the rank-2 source's
list and provenance are returned, and exactly two sources are consulted. -/
theorem holiday_resolver_first_nonempty_wins_witness :
    scrape_holidays_svc [failingScraper, succeedingScraper] 2025 2025 5 =
      ([stubHoliday],
        some ⟨succeedingScraper.name, succeedingScraper.url 2025, 2025, 5⟩,
        [failingScraper].length + 1) :=
  holiday_resolver_first_nonempty_wins [failingScraper, succeedingScraper]
    2025 2025 5 [failingScraper] [] succeedingScraper [stubHoliday]
    [saturdayWorkday]
    ⟨succeedingScraper.name, succeedingScraper.url 2025, 2025, 5⟩
    rfl
    (by
      intro t ht
      rw [List.mem_singleton] at ht
      subst ht
      exact Or.inl rfl)
    rfl
    (by decide)

/-- C3 counterexample: the Workday Merger applies no weekend check at the
point of merge — a source's record for Monday 2025-05-19 passes through
into the merged list (the repository's scrapers each filter weekends
before returning, but the merger itself accepts any date). -/
theorem workday_merger_no_weekend_filter_cex :
    scrape_workdays_svc [mondayScraper] 2025 2025 = [mondayWorkday] ∧
      mondayWorkday.date.weekday ≠ 5 ∧ mondayWorkday.date.weekday ≠ 6 :=
  ⟨rfl, by decide, by decide⟩

/-- C3 amended: the merge step performs no weekend filtering; the merged
list consists of weekend dates exactly when every successful source output
does (the merger preserves, but does not enforce, the weekend invariant;
in the repository each scraper checks `weekday() >= 5` before returning). -/
theorem workday_merger_weekend_preserved (scrapers : List Scraper)
    (currentYear year : Int)
    (h : ∀ s ∈ scrapers, ∀ ws, s.scrape_weekend_workdays year = some ws →
        ∀ w ∈ ws, w.date.weekday = 5 ∨ w.date.weekday = 6) :
    ∀ w ∈ scrape_workdays_svc scrapers currentYear year,
      w.date.weekday = 5 ∨ w.date.weekday = 6 := by
  intro w hw
  obtain ⟨s, hsmem, ws, hws, hwin⟩ := mem_scrape_workdays_attribution hw
  exact h s hsmem ws hws w hwin

/-- Witness for the amended C3: a Saturday-only source yields a merged
entry on a weekend day. -/
theorem workday_merger_weekend_preserved_witness :
    saturdayWorkday.date.weekday = 5 ∨ saturdayWorkday.date.weekday = 6 :=
  workday_merger_weekend_preserved [succeedingScraper] 2025 2025
    (by
      intro s hsm ws hws w hw
      rw [List.mem_singleton] at hsm
      subst hsm
      have hws2 : some [saturdayWorkday] = some ws := hws
      obtain rfl := Option.some.inj hws2
      rw [List.mem_singleton] at hw
      subst hw
      exact Or.inl (by decide))
    saturdayWorkday (by decide)

/-- C4 counterexample: neither the Resolver nor the Merger filters by the
requested year — a source's holiday dated 2026-01-01 and workday dated
2026-12-12 are both kept in the result for the 2025 request. -/
theorem no_year_filter_cex :
    (scrape_holidays_svc [wrongYearScraper] 2025 2025 0).1 = [wrongYearHoliday] ∧
      scrape_workdays_svc [wrongYearScraper] 2025 2025 = [wrongYearWorkday] ∧
      ((wrongYearHoliday.date.year : Int) ≠ (2025 : Int)) ∧
      ((wrongYearWorkday.date.year : Int) ≠ (2025 : Int)) :=
  ⟨rfl, rfl, by decide, by decide⟩

/-- C4 amended: the Resolver and the Merger pass records through without
any year check; result entries carry the requested year exactly when every
source's successful output does (preservation, not enforcement). -/
theorem records_in_requested_year_preserved
    (holidayScrapers workdayScrapers : List Scraper)
    (currentYear year : Int) (now : Nat)
    (hH : ∀ s ∈ holidayScrapers, ∀ hs, s.scrape_holidays year = some hs →
        ∀ x ∈ hs, ((x : Holiday).date.year : Int) = year)
    (hW : ∀ s ∈ workdayScrapers, ∀ ws, s.scrape_weekend_workdays year = some ws →
        ∀ w ∈ ws, ((w : WorkDay).date.year : Int) = year) :
    (∀ x ∈ (scrape_holidays_svc holidayScrapers currentYear year now).1,
        ((x : Holiday).date.year : Int) = year) ∧
      (∀ w ∈ scrape_workdays_svc workdayScrapers currentYear year,
        ((w : WorkDay).date.year : Int) = year) := by
  constructor
  · exact scrape_holidays_svc_prop
      (fun l => ∀ x ∈ l, ((x : Holiday).date.year : Int) = year)
      (by intro x hx; cases hx) holidayScrapers currentYear year now hH
  · intro w hw
    obtain ⟨s, hsmem, ws, hws, hwin⟩ := mem_scrape_workdays_attribution hw
    exact hW s hsmem ws hws w hwin

/-- Witness for the amended C4 with an in-year source. -/
theorem records_in_requested_year_preserved_witness :
    (stubHoliday.date.year : Int) = 2025 :=
  (records_in_requested_year_preserved [succeedingScraper] [succeedingScraper]
      2025 2025 0
      (by
        intro s hsm hs hhs x hx
        rw [List.mem_singleton] at hsm
        subst hsm
        have hhs2 : some [stubHoliday] = some hs := hhs
        obtain rfl := Option.some.inj hhs2
        rw [List.mem_singleton] at hx
        subst hx
        decide)
      (by
        intro s hsm ws hws w hw
        rw [List.mem_singleton] at hsm
        subst hsm
        have hws2 : some [saturdayWorkday] = some ws := hws
        obtain rfl := Option.some.inj hws2
        rw [List.mem_singleton] at hw
        subst hw
        decide)).1
    stubHoliday (by decide)

/-- C5 counterexample: the accepted holiday source's list is used verbatim;
one source returning two holidays on the same date yields an
`AggregationResult` whose holiday list has two entries with one date. -/
theorem duplicate_holiday_dates_cex :
    (get_holidays ⟨[dupScraper], []⟩ [] 2025 2025 0).1.holidays =
        [dupHolidayA, dupHolidayB] ∧
      dupHolidayA.date = dupHolidayB.date ∧ dupHolidayA ≠ dupHolidayB :=
  ⟨rfl, rfl, by decide⟩

/-- C5 amended: the workday list always has pairwise-distinct dates (the
first-seen-wins dict guarantees it against any source output), while the
holiday list is the accepted source's list verbatim, so its dates are
distinct only under the assumption that every source's holiday output has
distinct dates. -/
theorem unique_dates_workdays_always_holidays_conditional
    (holidayScrapers workdayScrapers : List Scraper)
    (currentYear year : Int) (now : Nat)
    (hH : ∀ s ∈ holidayScrapers, ∀ hs, s.scrape_holidays year = some hs →
        hs.Pairwise (fun a b => a.date ≠ b.date)) :
    (scrape_workdays_svc workdayScrapers currentYear year).Pairwise
        (fun a b => a.date ≠ b.date) ∧
      (scrape_holidays_svc holidayScrapers currentYear year now).1.Pairwise
        (fun a b => a.date ≠ b.date) :=
  ⟨dates_pairwise_ne_scrape_workdays workdayScrapers currentYear year,
    scrape_holidays_svc_prop (fun l => l.Pairwise (fun a b => a.date ≠ b.date))
      List.Pairwise.nil holidayScrapers currentYear year now hH⟩

/-- Witness for the amended C5. -/
theorem unique_dates_workdays_always_holidays_conditional_witness :
    (scrape_workdays_svc [succeedingScraper] 2025 2025).Pairwise
        (fun a b => a.date ≠ b.date) ∧
      (scrape_holidays_svc [succeedingScraper] 2025 2025 0).1.Pairwise
        (fun a b => a.date ≠ b.date) :=
  unique_dates_workdays_always_holidays_conditional [succeedingScraper]
    [succeedingScraper] 2025 2025 0
    (by
      intro s hsm hs hhs
      rw [List.mem_singleton] at hsm
      subst hsm
      have hhs2 : some [stubHoliday] = some hs := hhs
      obtain rfl := Option.some.inj hhs2
      simp)

/-- The fetch count of a full (cache-miss) pipeline run. -/
lemma computeResponse_count (svc : Service) (currentYear year : Int) (now : Nat) :
    (computeResponse svc currentYear year now).2 =
      (scrape_holidays_svc svc.holiday_scrapers currentYear year now).2.2 +
        (get_scrapers_for_year svc.workday_scrapers currentYear year).length := rfl

/-- The cache-miss branch of `get_holidays`. -/
lemma get_holidays_miss (svc : Service) (c : Cache) (currentYear year : Int)
    (now : Nat) (hmiss : cacheLookup c (cacheKey year) now = none) :
    get_holidays svc c currentYear year now =
      ((computeResponse svc currentYear year now).1,
        cachePut c (cacheKey year) now (computeResponse svc currentYear year now).1,
        (computeResponse svc currentYear year now).2) := by
  simp only [get_holidays, hmiss]

/-- The cache-hit branch of `get_holidays`: the cached response is returned
unchanged with no fetch calls. -/
lemma get_holidays_hit (svc : Service) (c : Cache) (currentYear year : Int)
    (now : Nat) (r : HolidayResponse)
    (hhit : cacheLookup c (cacheKey year) now = some r) :
    get_holidays svc c currentYear year now = (r, c, 0) := by
  simp only [get_holidays, hhit]

/-- C6: if every ranked source fails or returns empty for the year, the
Facade still returns a result: empty holiday and workday lists with the
sentinel provenance `{name="None", url="", year, timestamp=now}` (the
function is total, so a result object always exists). -/
theorem total_failure_returns_empty_sentinel (svc : Service) (c : Cache)
    (currentYear year : Int) (now : Nat)
    (hmiss : cacheLookup c (cacheKey year) now = none)
    (hH : ∀ s ∈ svc.holiday_scrapers, s.scrape year now = none ∨
        ∃ ws si, s.scrape year now = some ([], ws, si))
    (hW : ∀ s ∈ svc.workday_scrapers, s.scrape_weekend_workdays year = none ∨
        s.scrape_weekend_workdays year = some []) :
    (get_holidays svc c currentYear year now).1 =
      ⟨year, [], [], ⟨"None", "", year, now⟩, 0, 0⟩ := by
  rw [get_holidays_miss svc c currentYear year now hmiss]
  exact computeResponse_all_fail svc currentYear year now hH hW

/-- Witness for C6: one all-failing source in each registry. -/
theorem total_failure_returns_empty_sentinel_witness :
    (get_holidays ⟨[failingScraper], [failingScraper]⟩ [] 2025 2025 9).1 =
      ⟨2025, [], [], ⟨"None", "", 2025, 9⟩, 0, 0⟩ :=
  total_failure_returns_empty_sentinel ⟨[failingScraper], [failingScraper]⟩ []
    2025 2025 9 rfl
    (by
      intro s hsm
      rw [List.mem_singleton] at hsm
      subst hsm
      exact Or.inl rfl)
    (by
      intro s hsm
      rw [List.mem_singleton] at hsm
      subst hsm
      exact Or.inl rfl)

/-- C8: after a cache-miss call at `t1`, a second call within the TTL
window returns the identical response from the cache with zero source
fetches and an unchanged cache; after `clear_cache`, the next call re-runs
the full Resolver/Merger pipeline (its result and fetch count are those of
a fresh pipeline run, and the count is positive when any workday source is
registered). -/
theorem cache_idempotent_within_ttl_and_clear_refetches (svc : Service)
    (c : Cache) (currentYear year : Int) (t1 t2 t3 : Nat)
    (hmiss : cacheLookup c (cacheKey year) t1 = none)
    (ht2 : t2 < t1 + cacheTTL) :
    get_holidays svc (get_holidays svc c currentYear year t1).2.1
        currentYear year t2 =
      ((get_holidays svc c currentYear year t1).1,
        (get_holidays svc c currentYear year t1).2.1, 0) ∧
      get_holidays svc (clear_cache (get_holidays svc c currentYear year t1).2.1)
          currentYear year t3 =
        ((computeResponse svc currentYear year t3).1,
          cachePut [] (cacheKey year) t3 (computeResponse svc currentYear year t3).1,
          (computeResponse svc currentYear year t3).2) ∧
      (svc.workday_scrapers ≠ [] →
        0 < (computeResponse svc currentYear year t3).2) := by
  have hfirst := get_holidays_miss svc c currentYear year t1 hmiss
  refine ⟨?_, ?_, ?_⟩
  · rw [hfirst]
    exact get_holidays_hit svc _ currentYear year t2 _
      (by rw [cacheLookup_cachePut_same, if_pos ht2])
  · exact get_holidays_miss svc _ currentYear year t3 rfl
  · intro hne
    rw [computeResponse_count]
    have hlen := (perm_get_scrapers_for_year svc.workday_scrapers currentYear
      year).length_eq
    have hpos : 0 < svc.workday_scrapers.length := List.length_pos.mpr hne
    omega

/-- Witness for C8: the stub service, a miss at time 0, a hit at time 10,
and a positive fetch count after clearing. -/
theorem cache_idempotent_within_ttl_and_clear_refetches_witness :
    get_holidays svcG (get_holidays svcG [] 2025 2025 0).2.1 2025 2025 10 =
        ((get_holidays svcG [] 2025 2025 0).1,
          (get_holidays svcG [] 2025 2025 0).2.1, 0) ∧
      0 < (computeResponse svcG 2025 2025 9999).2 :=
  ⟨(cache_idempotent_within_ttl_and_clear_refetches svcG [] 2025 2025 0 10 9999
      rfl (by decide)).1,
    (cache_idempotent_within_ttl_and_clear_refetches svcG [] 2025 2025 0 10 9999
      rfl (by decide)).2.2 (List.cons_ne_nil _ _)⟩

/-- Witness for C9 at the repository's `MfaGovHuScraper` window (-1, 1),
"now" 2025, requested year 2030. -/
theorem year_distance_zero_iff_supported_witness :
    0 ≤ mfaWindowScraper.get_year_distance 2025 2030 ∧
      (mfaWindowScraper.get_year_distance 2025 2030 = 0 ↔
        mfaWindowScraper.supports_year 2025 2030 = true) ∧
      (mfaWindowScraper.supports_year 2025 2030 = false →
        mfaWindowScraper.get_year_distance 2025 2030 =
          min ((2030 - (2025 + mfaWindowScraper.min_year_offset)).natAbs : Int)
              ((2030 - (2025 + mfaWindowScraper.max_year_offset)).natAbs : Int)) :=
  year_distance_zero_iff_supported mfaWindowScraper 2025 2030 (by decide)

/-- C10: on a cache miss the assembled response is stored unconditionally —
here the total-failure response with empty lists and sentinel provenance —
and a later call within the TTL window is served that empty response from
the cache with zero source fetches. -/
theorem total_failure_response_cached_until_ttl (svc : Service) (c : Cache)
    (currentYear year : Int) (t1 t2 : Nat)
    (hmiss : cacheLookup c (cacheKey year) t1 = none)
    (hH : ∀ s ∈ svc.holiday_scrapers, s.scrape year t1 = none ∨
        ∃ ws si, s.scrape year t1 = some ([], ws, si))
    (hW : ∀ s ∈ svc.workday_scrapers, s.scrape_weekend_workdays year = none ∨
        s.scrape_weekend_workdays year = some [])
    (ht2 : t2 < t1 + cacheTTL) :
    (get_holidays svc c currentYear year t1).2.1 =
        cachePut c (cacheKey year) t1
          ⟨year, [], [], ⟨"None", "", year, t1⟩, 0, 0⟩ ∧
      get_holidays svc (get_holidays svc c currentYear year t1).2.1
          currentYear year t2 =
        (⟨year, [], [], ⟨"None", "", year, t1⟩, 0, 0⟩,
          (get_holidays svc c currentYear year t1).2.1, 0) := by
  have hemp := computeResponse_all_fail svc currentYear year t1 hH hW
  have hfirst := get_holidays_miss svc c currentYear year t1 hmiss
  constructor
  · rw [hfirst, hemp]
  · rw [hfirst]
    rw [get_holidays_hit svc _ currentYear year t2 _
      (by rw [cacheLookup_cachePut_same, if_pos ht2])]
    rw [hemp]

/-- Witness for C10: all-failing sources; the empty response is stored at
time 3 and served from the cache at time 4. -/
theorem total_failure_response_cached_until_ttl_witness :
    (get_holidays ⟨[failingScraper], [failingScraper]⟩ [] 2025 2025 3).2.1 =
        cachePut [] (cacheKey 2025) 3
          ⟨2025, [], [], ⟨"None", "", 2025, 3⟩, 0, 0⟩ ∧
      get_holidays ⟨[failingScraper], [failingScraper]⟩
          (get_holidays ⟨[failingScraper], [failingScraper]⟩ [] 2025 2025 3).2.1
          2025 2025 4 =
        (⟨2025, [], [], ⟨"None", "", 2025, 3⟩, 0, 0⟩,
          (get_holidays ⟨[failingScraper], [failingScraper]⟩ [] 2025 2025 3).2.1,
          0) :=
  total_failure_response_cached_until_ttl ⟨[failingScraper], [failingScraper]⟩ []
    2025 2025 3 4 rfl
    (by
      intro s hsm
      rw [List.mem_singleton] at hsm
      subst hsm
      exact Or.inl rfl)
    (by
      intro s hsm
      rw [List.mem_singleton] at hsm
      subst hsm
      exact Or.inl rfl)
    (by decide)

end HungarianHolidays
